import Mathlib

/-!
Shallow embedding of the test-automation repository's dependency container
(`fixtures/dependency-container.ts`: class `DependencyContainer`) and the
small slice of `helpers/api.helper.ts` (`ApiHelper.getBaseUrl`) that the
container's contract mentions.

Modelling conventions:
* Playwright `Page` and `APIRequestContext` handles are opaque; they are
  modelled as `Nat` identifiers.  The container stores `Option Nat` for the
  `page` / `request` fields (`null` becomes `none`).
* JavaScript object identity (reference equality of constructed helper
  instances) is modelled by an allocation counter `nextId` carried in the
  container state: every `new Helper(...)` receives the current counter as
  its `id` field and bumps the counter.  Two instances are the same object
  iff they are equal as structures (their ids agree).
* A thrown `Error` becomes `Except.error msg`.  Since JavaScript mutations
  performed before a throw survive the throw, every fallible operation
  returns `Except String α × DependencyContainer`: the state component is
  meaningful on the error path as well.
* `process.env` reads are parameters of the constructor model; the
  JavaScript `||` fallback on strings (empty string is falsy) is `jsOr`.
-/

/-- Model of `PlaywrightHomePage` from `pages/playwright-home.page.ts`:
constructed from a `Page`; `id` models object identity. -/
structure PlaywrightHomePage where
  id : Nat
  page : Nat
deriving DecidableEq, Repr

/-- Model of `TodoPage` from `pages/todo.page.ts`: constructed from a
`Page`; `id` models object identity. -/
structure TodoPage where
  id : Nat
  page : Nat
deriving DecidableEq, Repr

/-- Model of `LocalStorageHelper` from `helpers/localStorage.helper.ts`:
constructed from a `Page`; `id` models object identity. -/
structure LocalStorageHelper where
  id : Nat
  page : Nat
deriving DecidableEq, Repr

/-- Model of `ApiHelper` from `helpers/api.helper.ts`: constructed from an
`APIRequestContext` and a base URL; `id` models object identity. -/
structure ApiHelper where
  id : Nat
  request : Nat
  baseURL : String
deriving DecidableEq, Repr

/-- Method `ApiHelper.getBaseUrl()` returns `this.baseURL`. -/
def ApiHelper.getBaseUrl (a : ApiHelper) : String :=
  a.baseURL

/-- Interface `PageDependencies`: the three page-based dependencies. -/
structure PageDependencies where
  playwrightHomePage : PlaywrightHomePage
  todoPage : TodoPage
  localStorageHelper : LocalStorageHelper
deriving DecidableEq, Repr

/-- Interface `ApiDependencies`: the API-based dependency. -/
structure ApiDependencies where
  apiHelper : ApiHelper
deriving DecidableEq, Repr

/-- Interface `TestDependencies extends PageDependencies, ApiDependencies`. -/
structure TestDependencies extends PageDependencies, ApiDependencies
deriving DecidableEq, Repr

/-- The `DependencyContainer` state: recorded session handles, the fixed
base URL, the four cache slots, and the allocation counter `nextId`
modelling the JavaScript heap's object identities. -/
structure DependencyContainer where
  page : Option Nat
  request : Option Nat
  baseURL : String
  cachedPlaywrightHomePage : Option PlaywrightHomePage
  cachedTodoPage : Option TodoPage
  cachedLocalStorageHelper : Option LocalStorageHelper
  cachedApiHelper : Option ApiHelper
  nextId : Nat
deriving DecidableEq, Repr

/-- JavaScript `a || b` on optional strings: `undefined` and the empty
string are falsy, so both fall through to `b`. -/
def jsOr (a : Option String) (b : String) : String :=
  match a with
  | some s => if s = "" then b else s
  | none => b

/-- The literal fallback base URL in the constructor. -/
def defaultApiBaseURL : String :=
  "https://jsonplaceholder.typicode.com"

/-- The `DependencyContainer` constructor:
`this.baseURL = options?.baseURL || process.env.BASE_URL ||
process.env.API_BASE_URL || 'https://jsonplaceholder.typicode.com'`.
All other fields start `null` (the allocation counter starts at 0). -/
def createDependencyContainer (optionsBaseURL envBASE_URL envAPI_BASE_URL : Option String) :
    DependencyContainer :=
  { page := none
    request := none
    baseURL := jsOr optionsBaseURL (jsOr envBASE_URL (jsOr envAPI_BASE_URL defaultApiBaseURL))
    cachedPlaywrightHomePage := none
    cachedTodoPage := none
    cachedLocalStorageHelper := none
    cachedApiHelper := none
    nextId := 0 }

/-- Error message of the page-dependency accessors and create methods. -/
def pageNotInitializedMsg : String :=
  "Page not initialized. Call initializePage() first."

/-- Error message of the API-dependency accessor and create method. -/
def apiNotInitializedMsg : String :=
  "API request context not initialized. Call initializeApi() first."

/-- Method `initializePage(page)`: records the page handle and nulls the three
page-dependency cache slots. -/
def DependencyContainer.initializePage (c : DependencyContainer) (page : Nat) :
    DependencyContainer :=
  { c with
    page := some page
    cachedPlaywrightHomePage := none
    cachedTodoPage := none
    cachedLocalStorageHelper := none }

/-- Method `initializeApi(request)`: records the request handle and nulls the
`apiHelper` cache slot. -/
def DependencyContainer.initializeApi (c : DependencyContainer) (request : Nat) :
    DependencyContainer :=
  { c with
    request := some request
    cachedApiHelper := none }

/-- The `playwrightHomePage` getter: throws if `page` is null; otherwise
returns the cached instance, constructing and caching it first if absent. -/
def DependencyContainer.playwrightHomePage (c : DependencyContainer) :
    Except String PlaywrightHomePage × DependencyContainer :=
  match c.page with
  | none => (Except.error pageNotInitializedMsg, c)
  | some p =>
    match c.cachedPlaywrightHomePage with
    | some inst => (Except.ok inst, c)
    | none =>
      let inst : PlaywrightHomePage := { id := c.nextId, page := p }
      (Except.ok inst,
        { c with cachedPlaywrightHomePage := some inst, nextId := c.nextId + 1 })

/-- The `todoPage` getter: throws if `page` is null; otherwise returns the
cached instance, constructing and caching it first if absent. -/
def DependencyContainer.todoPage (c : DependencyContainer) :
    Except String TodoPage × DependencyContainer :=
  match c.page with
  | none => (Except.error pageNotInitializedMsg, c)
  | some p =>
    match c.cachedTodoPage with
    | some inst => (Except.ok inst, c)
    | none =>
      let inst : TodoPage := { id := c.nextId, page := p }
      (Except.ok inst,
        { c with cachedTodoPage := some inst, nextId := c.nextId + 1 })

/-- The `localStorageHelper` getter: throws if `page` is null; otherwise
returns the cached instance, constructing and caching it first if absent. -/
def DependencyContainer.localStorageHelper (c : DependencyContainer) :
    Except String LocalStorageHelper × DependencyContainer :=
  match c.page with
  | none => (Except.error pageNotInitializedMsg, c)
  | some p =>
    match c.cachedLocalStorageHelper with
    | some inst => (Except.ok inst, c)
    | none =>
      let inst : LocalStorageHelper := { id := c.nextId, page := p }
      (Except.ok inst,
        { c with cachedLocalStorageHelper := some inst, nextId := c.nextId + 1 })

/-- The `apiHelper` getter: throws if `request` is null; otherwise returns
the cached instance, constructing it with `(this.request, this.baseURL)`
and caching it first if absent. -/
def DependencyContainer.apiHelper (c : DependencyContainer) :
    Except String ApiHelper × DependencyContainer :=
  match c.request with
  | none => (Except.error apiNotInitializedMsg, c)
  | some r =>
    match c.cachedApiHelper with
    | some inst => (Except.ok inst, c)
    | none =>
      let inst : ApiHelper := { id := c.nextId, request := r, baseURL := c.baseURL }
      (Except.ok inst,
        { c with cachedApiHelper := some inst, nextId := c.nextId + 1 })

/-- Method `createPlaywrightHomePage()`: same precondition as the getter, but
returns a fresh non-cached instance. -/
def DependencyContainer.createPlaywrightHomePage (c : DependencyContainer) :
    Except String PlaywrightHomePage × DependencyContainer :=
  match c.page with
  | none => (Except.error pageNotInitializedMsg, c)
  | some p =>
    (Except.ok { id := c.nextId, page := p }, { c with nextId := c.nextId + 1 })

/-- Method `createTodoPage()`: same precondition as the getter, but returns a
fresh non-cached instance. -/
def DependencyContainer.createTodoPage (c : DependencyContainer) :
    Except String TodoPage × DependencyContainer :=
  match c.page with
  | none => (Except.error pageNotInitializedMsg, c)
  | some p =>
    (Except.ok { id := c.nextId, page := p }, { c with nextId := c.nextId + 1 })

/-- Method `createLocalStorageHelper()`: same precondition as the getter, but
returns a fresh non-cached instance. -/
def DependencyContainer.createLocalStorageHelper (c : DependencyContainer) :
    Except String LocalStorageHelper × DependencyContainer :=
  match c.page with
  | none => (Except.error pageNotInitializedMsg, c)
  | some p =>
    (Except.ok { id := c.nextId, page := p }, { c with nextId := c.nextId + 1 })

/-- Method `createApiHelper(customBaseURL?)`: same precondition as the getter;
builds a fresh instance with `customBaseURL || this.baseURL`. -/
def DependencyContainer.createApiHelper (c : DependencyContainer)
    (customBaseURL : Option String) :
    Except String ApiHelper × DependencyContainer :=
  match c.request with
  | none => (Except.error apiNotInitializedMsg, c)
  | some r =>
    (Except.ok { id := c.nextId, request := r, baseURL := jsOr customBaseURL c.baseURL },
      { c with nextId := c.nextId + 1 })

/-- Method `clearCache()`: nulls all four cache slots. -/
def DependencyContainer.clearCache (c : DependencyContainer) : DependencyContainer :=
  { c with
    cachedPlaywrightHomePage := none
    cachedTodoPage := none
    cachedLocalStorageHelper := none
    cachedApiHelper := none }

/-- Method `getPageDependencies()`: reads the three page-dependency getters in
object-literal order; a throw propagates, keeping earlier mutations. -/
def DependencyContainer.getPageDependencies (c : DependencyContainer) :
    Except String PageDependencies × DependencyContainer :=
  match c.playwrightHomePage with
  | (Except.error e, c1) => (Except.error e, c1)
  | (Except.ok php, c1) =>
    match c1.todoPage with
    | (Except.error e, c2) => (Except.error e, c2)
    | (Except.ok tp, c2) =>
      match c2.localStorageHelper with
      | (Except.error e, c3) => (Except.error e, c3)
      | (Except.ok ls, c3) =>
        (Except.ok { playwrightHomePage := php, todoPage := tp, localStorageHelper := ls }, c3)

/-- Method `getApiDependencies()`: reads the `apiHelper` getter. -/
def DependencyContainer.getApiDependencies (c : DependencyContainer) :
    Except String ApiDependencies × DependencyContainer :=
  match c.apiHelper with
  | (Except.error e, c1) => (Except.error e, c1)
  | (Except.ok ah, c1) => (Except.ok { apiHelper := ah }, c1)

/-- Method `getAllDependencies()`: spreads `getPageDependencies()` and then
`getApiDependencies()`; either throw propagates, keeping the mutations
already performed. -/
def DependencyContainer.getAllDependencies (c : DependencyContainer) :
    Except String TestDependencies × DependencyContainer :=
  match c.getPageDependencies with
  | (Except.error e, c1) => (Except.error e, c1)
  | (Except.ok pd, c1) =>
    match c1.getApiDependencies with
    | (Except.error e, c2) => (Except.error e, c2)
    | (Except.ok ad, c2) =>
      (Except.ok { toPageDependencies := pd, apiHelper := ad.apiHelper }, c2)

/-- One public operation of the container, for trace reasoning. -/
inductive Op where
  | initializePage (page : Nat)
  | initializeApi (request : Nat)
  | accessPlaywrightHomePage
  | accessTodoPage
  | accessLocalStorageHelper
  | accessApiHelper
  | createPlaywrightHomePage
  | createTodoPage
  | createLocalStorageHelper
  | createApiHelper (customBaseURL : Option String)
  | clearCache
  | getPageDependencies
  | getApiDependencies
  | getAllDependencies
deriving DecidableEq, Repr

/-- Whether an operation is an `initializePage` call. -/
def Op.isInitPage : Op → Bool
  | Op.initializePage _ => true
  | _ => false

/-- Whether an operation is an `initializeApi` call. -/
def Op.isInitApi : Op → Bool
  | Op.initializeApi _ => true
  | _ => false

/-- Forget a fallible operation's value, keeping success/error and state. -/
def discardValue {α : Type} :
    Except String α × DependencyContainer → Except String Unit × DependencyContainer
  | (Except.ok _, c) => (Except.ok (), c)
  | (Except.error e, c) => (Except.error e, c)

/-- Run one public operation on the container. -/
def step (c : DependencyContainer) : Op → Except String Unit × DependencyContainer
  | Op.initializePage p => (Except.ok (), c.initializePage p)
  | Op.initializeApi r => (Except.ok (), c.initializeApi r)
  | Op.accessPlaywrightHomePage => discardValue c.playwrightHomePage
  | Op.accessTodoPage => discardValue c.todoPage
  | Op.accessLocalStorageHelper => discardValue c.localStorageHelper
  | Op.accessApiHelper => discardValue c.apiHelper
  | Op.createPlaywrightHomePage => discardValue c.createPlaywrightHomePage
  | Op.createTodoPage => discardValue c.createTodoPage
  | Op.createLocalStorageHelper => discardValue c.createLocalStorageHelper
  | Op.createApiHelper u => discardValue (c.createApiHelper u)
  | Op.clearCache => (Except.ok (), c.clearCache)
  | Op.getPageDependencies => discardValue c.getPageDependencies
  | Op.getApiDependencies => discardValue c.getApiDependencies
  | Op.getAllDependencies => discardValue c.getAllDependencies

/-- Run a sequence of public operations, keeping only the final state
(JavaScript exceptions do not destroy the container object). -/
def run (c : DependencyContainer) : List Op → DependencyContainer
  | [] => c
  | op :: tr => run (step c op).2 tr

/-- Reachable-state invariant: every cached instance was allocated before
the current counter value, and a cached `ApiHelper` carries the container's
base URL. -/
def DependencyContainer.WF (c : DependencyContainer) : Bool :=
  c.cachedPlaywrightHomePage.all (fun x => decide (x.id < c.nextId)) &&
  c.cachedTodoPage.all (fun x => decide (x.id < c.nextId)) &&
  c.cachedLocalStorageHelper.all (fun x => decide (x.id < c.nextId)) &&
  c.cachedApiHelper.all (fun x => decide (x.id < c.nextId) && decide (x.baseURL = c.baseURL))

/-- A concrete reachable container used by witnesses: page handle 1 and
request handle 2 recorded, a `PlaywrightHomePage` and an `ApiHelper`
cached. -/
def sampleContainer : DependencyContainer :=
  { page := some 1
    request := some 2
    baseURL := defaultApiBaseURL
    cachedPlaywrightHomePage := some { id := 0, page := 1 }
    cachedTodoPage := none
    cachedLocalStorageHelper := none
    cachedApiHelper := some { id := 1, request := 2, baseURL := defaultApiBaseURL }
    nextId := 2 }

/-- A concrete container with both handles recorded and all caches empty,
used by witnesses. -/
def emptyCacheContainer : DependencyContainer :=
  ((createDependencyContainer none none none).initializePage 1).initializeApi 2

/-- A sample explicit base URL for witnesses. -/
def exampleBaseURL : String :=
  "https://example.test"

/-- A sample custom base URL for witnesses. -/
def customBaseURL : String :=
  "https://custom.test"

theorem php_err (c : DependencyContainer) (h : c.page = none) :
    c.playwrightHomePage = (Except.error pageNotInitializedMsg, c) := by
  simp [DependencyContainer.playwrightHomePage, h]

theorem php_hit (c : DependencyContainer) (p : Nat) (i : PlaywrightHomePage)
    (hp : c.page = some p) (hc : c.cachedPlaywrightHomePage = some i) :
    c.playwrightHomePage = (Except.ok i, c) := by
  simp [DependencyContainer.playwrightHomePage, hp, hc]

theorem php_miss (c : DependencyContainer) (p : Nat)
    (hp : c.page = some p) (hc : c.cachedPlaywrightHomePage = none) :
    c.playwrightHomePage =
      (Except.ok { id := c.nextId, page := p },
        { c with cachedPlaywrightHomePage := some { id := c.nextId, page := p },
                 nextId := c.nextId + 1 }) := by
  simp [DependencyContainer.playwrightHomePage, hp, hc]

theorem tp_err (c : DependencyContainer) (h : c.page = none) :
    c.todoPage = (Except.error pageNotInitializedMsg, c) := by
  simp [DependencyContainer.todoPage, h]

theorem tp_hit (c : DependencyContainer) (p : Nat) (i : TodoPage)
    (hp : c.page = some p) (hc : c.cachedTodoPage = some i) :
    c.todoPage = (Except.ok i, c) := by
  simp [DependencyContainer.todoPage, hp, hc]

theorem tp_miss (c : DependencyContainer) (p : Nat)
    (hp : c.page = some p) (hc : c.cachedTodoPage = none) :
    c.todoPage =
      (Except.ok { id := c.nextId, page := p },
        { c with cachedTodoPage := some { id := c.nextId, page := p },
                 nextId := c.nextId + 1 }) := by
  simp [DependencyContainer.todoPage, hp, hc]

theorem lsh_err (c : DependencyContainer) (h : c.page = none) :
    c.localStorageHelper = (Except.error pageNotInitializedMsg, c) := by
  simp [DependencyContainer.localStorageHelper, h]

theorem lsh_hit (c : DependencyContainer) (p : Nat) (i : LocalStorageHelper)
    (hp : c.page = some p) (hc : c.cachedLocalStorageHelper = some i) :
    c.localStorageHelper = (Except.ok i, c) := by
  simp [DependencyContainer.localStorageHelper, hp, hc]

theorem lsh_miss (c : DependencyContainer) (p : Nat)
    (hp : c.page = some p) (hc : c.cachedLocalStorageHelper = none) :
    c.localStorageHelper =
      (Except.ok { id := c.nextId, page := p },
        { c with cachedLocalStorageHelper := some { id := c.nextId, page := p },
                 nextId := c.nextId + 1 }) := by
  simp [DependencyContainer.localStorageHelper, hp, hc]

theorem ah_err (c : DependencyContainer) (h : c.request = none) :
    c.apiHelper = (Except.error apiNotInitializedMsg, c) := by
  simp [DependencyContainer.apiHelper, h]

theorem ah_hit (c : DependencyContainer) (r : Nat) (i : ApiHelper)
    (hr : c.request = some r) (hc : c.cachedApiHelper = some i) :
    c.apiHelper = (Except.ok i, c) := by
  simp [DependencyContainer.apiHelper, hr, hc]

theorem ah_miss (c : DependencyContainer) (r : Nat)
    (hr : c.request = some r) (hc : c.cachedApiHelper = none) :
    c.apiHelper =
      (Except.ok { id := c.nextId, request := r, baseURL := c.baseURL },
        { c with
            cachedApiHelper := some { id := c.nextId, request := r, baseURL := c.baseURL },
            nextId := c.nextId + 1 }) := by
  simp [DependencyContainer.apiHelper, hr, hc]

theorem createPhp_err (c : DependencyContainer) (h : c.page = none) :
    c.createPlaywrightHomePage = (Except.error pageNotInitializedMsg, c) := by
  simp [DependencyContainer.createPlaywrightHomePage, h]

theorem createPhp_ok (c : DependencyContainer) (p : Nat) (hp : c.page = some p) :
    c.createPlaywrightHomePage =
      (Except.ok { id := c.nextId, page := p }, { c with nextId := c.nextId + 1 }) := by
  simp [DependencyContainer.createPlaywrightHomePage, hp]

theorem createTp_err (c : DependencyContainer) (h : c.page = none) :
    c.createTodoPage = (Except.error pageNotInitializedMsg, c) := by
  simp [DependencyContainer.createTodoPage, h]

theorem createTp_ok (c : DependencyContainer) (p : Nat) (hp : c.page = some p) :
    c.createTodoPage =
      (Except.ok { id := c.nextId, page := p }, { c with nextId := c.nextId + 1 }) := by
  simp [DependencyContainer.createTodoPage, hp]

theorem createLsh_err (c : DependencyContainer) (h : c.page = none) :
    c.createLocalStorageHelper = (Except.error pageNotInitializedMsg, c) := by
  simp [DependencyContainer.createLocalStorageHelper, h]

theorem createLsh_ok (c : DependencyContainer) (p : Nat) (hp : c.page = some p) :
    c.createLocalStorageHelper =
      (Except.ok { id := c.nextId, page := p }, { c with nextId := c.nextId + 1 }) := by
  simp [DependencyContainer.createLocalStorageHelper, hp]

theorem createAh_err (c : DependencyContainer) (u : Option String) (h : c.request = none) :
    c.createApiHelper u = (Except.error apiNotInitializedMsg, c) := by
  simp [DependencyContainer.createApiHelper, h]

theorem createAh_ok (c : DependencyContainer) (r : Nat) (u : Option String)
    (hr : c.request = some r) :
    c.createApiHelper u =
      (Except.ok { id := c.nextId, request := r, baseURL := jsOr u c.baseURL },
        { c with nextId := c.nextId + 1 }) := by
  simp [DependencyContainer.createApiHelper, hr]

theorem discardValue_snd {α : Type} (x : Except String α × DependencyContainer) :
    (discardValue x).2 = x.2 := by
  rcases x with ⟨e, c⟩
  cases e <;> rfl

theorem php_ok (c : DependencyContainer) (p : Nat) (hp : c.page = some p) :
    ∃ i c', c.playwrightHomePage = (Except.ok i, c') ∧
      c'.cachedPlaywrightHomePage = some i ∧
      c'.page = c.page ∧ c'.request = c.request ∧ c'.baseURL = c.baseURL ∧
      c'.cachedTodoPage = c.cachedTodoPage ∧
      c'.cachedLocalStorageHelper = c.cachedLocalStorageHelper ∧
      c'.cachedApiHelper = c.cachedApiHelper := by
  rcases hc : c.cachedPlaywrightHomePage with _ | i
  · exact ⟨_, _, php_miss c p hp hc, rfl, rfl, rfl, rfl, rfl, rfl, rfl⟩
  · exact ⟨i, c, php_hit c p i hp hc, hc, rfl, rfl, rfl, rfl, rfl, rfl⟩

theorem tp_ok (c : DependencyContainer) (p : Nat) (hp : c.page = some p) :
    ∃ i c', c.todoPage = (Except.ok i, c') ∧
      c'.cachedTodoPage = some i ∧
      c'.page = c.page ∧ c'.request = c.request ∧ c'.baseURL = c.baseURL ∧
      c'.cachedPlaywrightHomePage = c.cachedPlaywrightHomePage ∧
      c'.cachedLocalStorageHelper = c.cachedLocalStorageHelper ∧
      c'.cachedApiHelper = c.cachedApiHelper := by
  rcases hc : c.cachedTodoPage with _ | i
  · exact ⟨_, _, tp_miss c p hp hc, rfl, rfl, rfl, rfl, rfl, rfl, rfl⟩
  · exact ⟨i, c, tp_hit c p i hp hc, hc, rfl, rfl, rfl, rfl, rfl, rfl⟩

theorem lsh_ok (c : DependencyContainer) (p : Nat) (hp : c.page = some p) :
    ∃ i c', c.localStorageHelper = (Except.ok i, c') ∧
      c'.cachedLocalStorageHelper = some i ∧
      c'.page = c.page ∧ c'.request = c.request ∧ c'.baseURL = c.baseURL ∧
      c'.cachedPlaywrightHomePage = c.cachedPlaywrightHomePage ∧
      c'.cachedTodoPage = c.cachedTodoPage ∧
      c'.cachedApiHelper = c.cachedApiHelper := by
  rcases hc : c.cachedLocalStorageHelper with _ | i
  · exact ⟨_, _, lsh_miss c p hp hc, rfl, rfl, rfl, rfl, rfl, rfl, rfl⟩
  · exact ⟨i, c, lsh_hit c p i hp hc, hc, rfl, rfl, rfl, rfl, rfl, rfl⟩

theorem ah_ok (c : DependencyContainer) (r : Nat) (hr : c.request = some r) :
    ∃ i c', c.apiHelper = (Except.ok i, c') ∧
      c'.cachedApiHelper = some i ∧
      c'.page = c.page ∧ c'.request = c.request ∧ c'.baseURL = c.baseURL ∧
      c'.cachedPlaywrightHomePage = c.cachedPlaywrightHomePage ∧
      c'.cachedTodoPage = c.cachedTodoPage ∧
      c'.cachedLocalStorageHelper = c.cachedLocalStorageHelper := by
  rcases hc : c.cachedApiHelper with _ | i
  · exact ⟨_, _, ah_miss c r hr hc, rfl, rfl, rfl, rfl, rfl, rfl, rfl⟩
  · exact ⟨i, c, ah_hit c r i hr hc, hc, rfl, rfl, rfl, rfl, rfl, rfl⟩

theorem gpd_err (c : DependencyContainer) (h : c.page = none) :
    c.getPageDependencies = (Except.error pageNotInitializedMsg, c) := by
  simp [DependencyContainer.getPageDependencies, php_err c h]

theorem gpd_ok (c : DependencyContainer) (p : Nat) (hp : c.page = some p) :
    ∃ pd c', c.getPageDependencies = (Except.ok pd, c') ∧
      c'.cachedPlaywrightHomePage = some pd.playwrightHomePage ∧
      c'.cachedTodoPage = some pd.todoPage ∧
      c'.cachedLocalStorageHelper = some pd.localStorageHelper ∧
      c'.page = c.page ∧ c'.request = c.request ∧ c'.baseURL = c.baseURL ∧
      c'.cachedApiHelper = c.cachedApiHelper := by
  obtain ⟨i1, c1, h1, hs1, hp1, hr1, hb1, ht1, hl1, ha1⟩ := php_ok c p hp
  obtain ⟨i2, c2, h2, hs2, hp2, hr2, hb2, hq2, hl2, ha2⟩ := tp_ok c1 p (hp1.trans hp)
  obtain ⟨i3, c3, h3, hs3, hp3, hr3, hb3, hq3, ht3, ha3⟩ := lsh_ok c2 p (hp2.trans (hp1.trans hp))
  refine ⟨{ playwrightHomePage := i1, todoPage := i2, localStorageHelper := i3 }, c3, ?_,
    ?_, ?_, hs3, hp3.trans (hp2.trans hp1), hr3.trans (hr2.trans hr1),
    hb3.trans (hb2.trans hb1), ha3.trans (ha2.trans ha1)⟩
  · simp [DependencyContainer.getPageDependencies, h1, h2, h3]
  · exact hq3.trans (hq2.trans hs1)
  · exact ht3.trans hs2

theorem gapi_err (c : DependencyContainer) (h : c.request = none) :
    c.getApiDependencies = (Except.error apiNotInitializedMsg, c) := by
  simp [DependencyContainer.getApiDependencies, ah_err c h]

theorem gapi_ok (c : DependencyContainer) (r : Nat) (hr : c.request = some r) :
    ∃ ad c', c.getApiDependencies = (Except.ok ad, c') ∧
      c'.cachedApiHelper = some ad.apiHelper ∧
      c'.page = c.page ∧ c'.request = c.request ∧ c'.baseURL = c.baseURL ∧
      c'.cachedPlaywrightHomePage = c.cachedPlaywrightHomePage ∧
      c'.cachedTodoPage = c.cachedTodoPage ∧
      c'.cachedLocalStorageHelper = c.cachedLocalStorageHelper := by
  obtain ⟨i, c1, h1, hs1, hp1, hr1, hb1, hq1, ht1, hl1⟩ := ah_ok c r hr
  exact ⟨{ apiHelper := i }, c1,
    by simp [DependencyContainer.getApiDependencies, h1], hs1,
    hp1, hr1, hb1, hq1, ht1, hl1⟩

theorem php_frame (c : DependencyContainer) :
    (c.playwrightHomePage).2.page = c.page ∧
    (c.playwrightHomePage).2.request = c.request ∧
    (c.playwrightHomePage).2.baseURL = c.baseURL := by
  rcases hp : c.page with _ | p
  · rw [php_err c hp]
    exact ⟨hp, rfl, rfl⟩
  · obtain ⟨i, c1, h1, _, hpg, hrq, hbu, _, _, _⟩ := php_ok c p hp
    rw [h1]
    exact ⟨hpg.trans hp, hrq, hbu⟩

theorem tp_frame (c : DependencyContainer) :
    (c.todoPage).2.page = c.page ∧
    (c.todoPage).2.request = c.request ∧
    (c.todoPage).2.baseURL = c.baseURL := by
  rcases hp : c.page with _ | p
  · rw [tp_err c hp]
    exact ⟨hp, rfl, rfl⟩
  · obtain ⟨i, c1, h1, _, hpg, hrq, hbu, _, _, _⟩ := tp_ok c p hp
    rw [h1]
    exact ⟨hpg.trans hp, hrq, hbu⟩

theorem lsh_frame (c : DependencyContainer) :
    (c.localStorageHelper).2.page = c.page ∧
    (c.localStorageHelper).2.request = c.request ∧
    (c.localStorageHelper).2.baseURL = c.baseURL := by
  rcases hp : c.page with _ | p
  · rw [lsh_err c hp]
    exact ⟨hp, rfl, rfl⟩
  · obtain ⟨i, c1, h1, _, hpg, hrq, hbu, _, _, _⟩ := lsh_ok c p hp
    rw [h1]
    exact ⟨hpg.trans hp, hrq, hbu⟩

theorem ah_frame (c : DependencyContainer) :
    (c.apiHelper).2.page = c.page ∧
    (c.apiHelper).2.request = c.request ∧
    (c.apiHelper).2.baseURL = c.baseURL := by
  rcases hr : c.request with _ | r
  · rw [ah_err c hr]
    exact ⟨rfl, hr, rfl⟩
  · obtain ⟨i, c1, h1, _, hpg, hrq, hbu, _, _, _⟩ := ah_ok c r hr
    rw [h1]
    exact ⟨hpg, hrq.trans hr, hbu⟩

theorem createPhp_frame (c : DependencyContainer) :
    (c.createPlaywrightHomePage).2.page = c.page ∧
    (c.createPlaywrightHomePage).2.request = c.request ∧
    (c.createPlaywrightHomePage).2.baseURL = c.baseURL := by
  rcases hp : c.page with _ | p
  · rw [createPhp_err c hp]
    exact ⟨hp, rfl, rfl⟩
  · rw [createPhp_ok c p hp]
    exact ⟨hp, rfl, rfl⟩

theorem createTp_frame (c : DependencyContainer) :
    (c.createTodoPage).2.page = c.page ∧
    (c.createTodoPage).2.request = c.request ∧
    (c.createTodoPage).2.baseURL = c.baseURL := by
  rcases hp : c.page with _ | p
  · rw [createTp_err c hp]
    exact ⟨hp, rfl, rfl⟩
  · rw [createTp_ok c p hp]
    exact ⟨hp, rfl, rfl⟩

theorem createLsh_frame (c : DependencyContainer) :
    (c.createLocalStorageHelper).2.page = c.page ∧
    (c.createLocalStorageHelper).2.request = c.request ∧
    (c.createLocalStorageHelper).2.baseURL = c.baseURL := by
  rcases hp : c.page with _ | p
  · rw [createLsh_err c hp]
    exact ⟨hp, rfl, rfl⟩
  · rw [createLsh_ok c p hp]
    exact ⟨hp, rfl, rfl⟩

theorem createAh_frame (c : DependencyContainer) (u : Option String) :
    (c.createApiHelper u).2.page = c.page ∧
    (c.createApiHelper u).2.request = c.request ∧
    (c.createApiHelper u).2.baseURL = c.baseURL := by
  rcases hr : c.request with _ | r
  · rw [createAh_err c u hr]
    exact ⟨rfl, hr, rfl⟩
  · rw [createAh_ok c r u hr]
    exact ⟨rfl, hr, rfl⟩

theorem gpd_frame (c : DependencyContainer) :
    (c.getPageDependencies).2.page = c.page ∧
    (c.getPageDependencies).2.request = c.request ∧
    (c.getPageDependencies).2.baseURL = c.baseURL := by
  rcases hp : c.page with _ | p
  · rw [gpd_err c hp]
    exact ⟨hp, rfl, rfl⟩
  · obtain ⟨pd, c1, h1, _, _, _, hpg, hrq, hbu, _⟩ := gpd_ok c p hp
    rw [h1]
    exact ⟨hpg.trans hp, hrq, hbu⟩

theorem gapi_frame (c : DependencyContainer) :
    (c.getApiDependencies).2.page = c.page ∧
    (c.getApiDependencies).2.request = c.request ∧
    (c.getApiDependencies).2.baseURL = c.baseURL := by
  rcases hr : c.request with _ | r
  · rw [gapi_err c hr]
    exact ⟨rfl, hr, rfl⟩
  · obtain ⟨ad, c1, h1, _, hpg, hrq, hbu, _, _, _⟩ := gapi_ok c r hr
    rw [h1]
    exact ⟨hpg, hrq.trans hr, hbu⟩

theorem gad_frame (c : DependencyContainer) :
    (c.getAllDependencies).2.page = c.page ∧
    (c.getAllDependencies).2.request = c.request ∧
    (c.getAllDependencies).2.baseURL = c.baseURL := by
  rcases hp : c.page with _ | p
  · have h1 := gpd_err c hp
    simp [DependencyContainer.getAllDependencies, h1, hp]
  · obtain ⟨pd, c1, h1, _, _, _, hpg, hrq, hbu, _⟩ := gpd_ok c p hp
    rcases hr : c1.request with _ | r
    · have h2 := gapi_err c1 hr
      simp [DependencyContainer.getAllDependencies, h1, h2, hpg, hrq, hbu, hp]
    · obtain ⟨ad, c2, h2, _, hpg2, hrq2, hbu2, _, _, _⟩ := gapi_ok c1 r hr
      simp [DependencyContainer.getAllDependencies, h1, h2]
      exact ⟨(hpg2.trans hpg).trans hp, hrq2.trans hrq, hbu2.trans hbu⟩

theorem step_frame (c : DependencyContainer) (op : Op) :
    (op.isInitPage = false → (step c op).2.page = c.page) ∧
    (op.isInitApi = false → (step c op).2.request = c.request) ∧
    (step c op).2.baseURL = c.baseURL := by
  cases op with
  | initializePage p =>
    exact ⟨fun h => by simp [Op.isInitPage] at h, fun _ => rfl, rfl⟩
  | initializeApi r =>
    exact ⟨fun _ => rfl, fun h => by simp [Op.isInitApi] at h, rfl⟩
  | accessPlaywrightHomePage =>
    have h := php_frame c
    exact ⟨fun _ => by rw [step, discardValue_snd]; exact h.1,
      fun _ => by rw [step, discardValue_snd]; exact h.2.1,
      by rw [step, discardValue_snd]; exact h.2.2⟩
  | accessTodoPage =>
    have h := tp_frame c
    exact ⟨fun _ => by rw [step, discardValue_snd]; exact h.1,
      fun _ => by rw [step, discardValue_snd]; exact h.2.1,
      by rw [step, discardValue_snd]; exact h.2.2⟩
  | accessLocalStorageHelper =>
    have h := lsh_frame c
    exact ⟨fun _ => by rw [step, discardValue_snd]; exact h.1,
      fun _ => by rw [step, discardValue_snd]; exact h.2.1,
      by rw [step, discardValue_snd]; exact h.2.2⟩
  | accessApiHelper =>
    have h := ah_frame c
    exact ⟨fun _ => by rw [step, discardValue_snd]; exact h.1,
      fun _ => by rw [step, discardValue_snd]; exact h.2.1,
      by rw [step, discardValue_snd]; exact h.2.2⟩
  | createPlaywrightHomePage =>
    have h := createPhp_frame c
    exact ⟨fun _ => by rw [step, discardValue_snd]; exact h.1,
      fun _ => by rw [step, discardValue_snd]; exact h.2.1,
      by rw [step, discardValue_snd]; exact h.2.2⟩
  | createTodoPage =>
    have h := createTp_frame c
    exact ⟨fun _ => by rw [step, discardValue_snd]; exact h.1,
      fun _ => by rw [step, discardValue_snd]; exact h.2.1,
      by rw [step, discardValue_snd]; exact h.2.2⟩
  | createLocalStorageHelper =>
    have h := createLsh_frame c
    exact ⟨fun _ => by rw [step, discardValue_snd]; exact h.1,
      fun _ => by rw [step, discardValue_snd]; exact h.2.1,
      by rw [step, discardValue_snd]; exact h.2.2⟩
  | createApiHelper u =>
    have h := createAh_frame c u
    exact ⟨fun _ => by rw [step, discardValue_snd]; exact h.1,
      fun _ => by rw [step, discardValue_snd]; exact h.2.1,
      by rw [step, discardValue_snd]; exact h.2.2⟩
  | clearCache =>
    exact ⟨fun _ => rfl, fun _ => rfl, rfl⟩
  | getPageDependencies =>
    have h := gpd_frame c
    exact ⟨fun _ => by rw [step, discardValue_snd]; exact h.1,
      fun _ => by rw [step, discardValue_snd]; exact h.2.1,
      by rw [step, discardValue_snd]; exact h.2.2⟩
  | getApiDependencies =>
    have h := gapi_frame c
    exact ⟨fun _ => by rw [step, discardValue_snd]; exact h.1,
      fun _ => by rw [step, discardValue_snd]; exact h.2.1,
      by rw [step, discardValue_snd]; exact h.2.2⟩
  | getAllDependencies =>
    have h := gad_frame c
    exact ⟨fun _ => by rw [step, discardValue_snd]; exact h.1,
      fun _ => by rw [step, discardValue_snd]; exact h.2.1,
      by rw [step, discardValue_snd]; exact h.2.2⟩

theorem run_frame (c : DependencyContainer) (tr : List Op) :
    ((∀ op ∈ tr, op.isInitPage = false) → (run c tr).page = c.page) ∧
    ((∀ op ∈ tr, op.isInitApi = false) → (run c tr).request = c.request) ∧
    (run c tr).baseURL = c.baseURL := by
  induction tr generalizing c with
  | nil => exact ⟨fun _ => rfl, fun _ => rfl, rfl⟩
  | cons op tr ih =>
    obtain ⟨s1, s2, s3⟩ := step_frame c op
    obtain ⟨i1, i2, i3⟩ := ih (step c op).2
    refine ⟨?_, ?_, ?_⟩
    · intro h
      have h0 := h op (List.mem_cons_self op tr)
      have h1 := i1 (fun o ho => h o (List.mem_cons_of_mem op ho))
      show (run (step c op).2 tr).page = c.page
      rw [h1, s1 h0]
    · intro h
      have h0 := h op (List.mem_cons_self op tr)
      have h1 := i2 (fun o ho => h o (List.mem_cons_of_mem op ho))
      show (run (step c op).2 tr).request = c.request
      rw [h1, s2 h0]
    · show (run (step c op).2 tr).baseURL = c.baseURL
      rw [i3, s3]

theorem wf_iff (c : DependencyContainer) :
    c.WF = true ↔
      (∀ x, c.cachedPlaywrightHomePage = some x → x.id < c.nextId) ∧
      (∀ x, c.cachedTodoPage = some x → x.id < c.nextId) ∧
      (∀ x, c.cachedLocalStorageHelper = some x → x.id < c.nextId) ∧
      (∀ x, c.cachedApiHelper = some x → x.id < c.nextId ∧ x.baseURL = c.baseURL) := by
  rcases c with ⟨pg, rq, bu, s1, s2, s3, s4, n⟩
  rcases s1 <;> rcases s2 <;> rcases s3 <;> rcases s4 <;>
    simp [DependencyContainer.WF, Option.all] <;> tauto

theorem wf_initializePage (c : DependencyContainer) (p : Nat) (h : c.WF = true) :
    (c.initializePage p).WF = true := by
  rw [wf_iff] at h
  rw [wf_iff]
  refine ⟨?_, ?_, ?_, ?_⟩ <;> intro x hx
  · exact Option.noConfusion hx
  · exact Option.noConfusion hx
  · exact Option.noConfusion hx
  · exact h.2.2.2 x hx

theorem wf_initializeApi (c : DependencyContainer) (r : Nat) (h : c.WF = true) :
    (c.initializeApi r).WF = true := by
  rw [wf_iff] at h
  rw [wf_iff]
  refine ⟨?_, ?_, ?_, ?_⟩ <;> intro x hx
  · exact h.1 x hx
  · exact h.2.1 x hx
  · exact h.2.2.1 x hx
  · exact Option.noConfusion hx

theorem wf_clearCache (c : DependencyContainer) (h : c.WF = true) :
    (c.clearCache).WF = true := by
  rw [wf_iff]
  refine ⟨?_, ?_, ?_, ?_⟩ <;> intro x hx <;> exact Option.noConfusion hx

theorem wf_php (c : DependencyContainer) (h : c.WF = true) :
    (c.playwrightHomePage).2.WF = true := by
  rcases hp : c.page with _ | p
  · rw [php_err c hp]
    exact h
  · rcases hc : c.cachedPlaywrightHomePage with _ | i
    · rw [php_miss c p hp hc]
      rw [wf_iff] at h
      rw [wf_iff]
      refine ⟨?_, ?_, ?_, ?_⟩ <;> intro x hx
      · have hx2 : x = { id := c.nextId, page := p } := (Option.some.inj hx).symm
        rw [hx2]
        exact Nat.lt_succ_self c.nextId
      · exact Nat.lt_succ_of_lt (h.2.1 x hx)
      · exact Nat.lt_succ_of_lt (h.2.2.1 x hx)
      · exact ⟨Nat.lt_succ_of_lt (h.2.2.2 x hx).1, (h.2.2.2 x hx).2⟩
    · rw [php_hit c p i hp hc]
      exact h

theorem wf_tp (c : DependencyContainer) (h : c.WF = true) :
    (c.todoPage).2.WF = true := by
  rcases hp : c.page with _ | p
  · rw [tp_err c hp]
    exact h
  · rcases hc : c.cachedTodoPage with _ | i
    · rw [tp_miss c p hp hc]
      rw [wf_iff] at h
      rw [wf_iff]
      refine ⟨?_, ?_, ?_, ?_⟩ <;> intro x hx
      · exact Nat.lt_succ_of_lt (h.1 x hx)
      · have hx2 : x = { id := c.nextId, page := p } := (Option.some.inj hx).symm
        rw [hx2]
        exact Nat.lt_succ_self c.nextId
      · exact Nat.lt_succ_of_lt (h.2.2.1 x hx)
      · exact ⟨Nat.lt_succ_of_lt (h.2.2.2 x hx).1, (h.2.2.2 x hx).2⟩
    · rw [tp_hit c p i hp hc]
      exact h

theorem wf_lsh (c : DependencyContainer) (h : c.WF = true) :
    (c.localStorageHelper).2.WF = true := by
  rcases hp : c.page with _ | p
  · rw [lsh_err c hp]
    exact h
  · rcases hc : c.cachedLocalStorageHelper with _ | i
    · rw [lsh_miss c p hp hc]
      rw [wf_iff] at h
      rw [wf_iff]
      refine ⟨?_, ?_, ?_, ?_⟩ <;> intro x hx
      · exact Nat.lt_succ_of_lt (h.1 x hx)
      · exact Nat.lt_succ_of_lt (h.2.1 x hx)
      · have hx2 : x = { id := c.nextId, page := p } := (Option.some.inj hx).symm
        rw [hx2]
        exact Nat.lt_succ_self c.nextId
      · exact ⟨Nat.lt_succ_of_lt (h.2.2.2 x hx).1, (h.2.2.2 x hx).2⟩
    · rw [lsh_hit c p i hp hc]
      exact h

theorem wf_ah (c : DependencyContainer) (h : c.WF = true) :
    (c.apiHelper).2.WF = true := by
  rcases hr : c.request with _ | r
  · rw [ah_err c hr]
    exact h
  · rcases hc : c.cachedApiHelper with _ | i
    · rw [ah_miss c r hr hc]
      rw [wf_iff] at h
      rw [wf_iff]
      refine ⟨?_, ?_, ?_, ?_⟩ <;> intro x hx
      · exact Nat.lt_succ_of_lt (h.1 x hx)
      · exact Nat.lt_succ_of_lt (h.2.1 x hx)
      · exact Nat.lt_succ_of_lt (h.2.2.1 x hx)
      · have hx2 : x = { id := c.nextId, request := r, baseURL := c.baseURL } :=
          (Option.some.inj hx).symm
        rw [hx2]
        exact ⟨Nat.lt_succ_self c.nextId, rfl⟩
    · rw [ah_hit c r i hr hc]
      exact h

theorem wf_createPhp (c : DependencyContainer) (h : c.WF = true) :
    (c.createPlaywrightHomePage).2.WF = true := by
  rcases hp : c.page with _ | p
  · rw [createPhp_err c hp]
    exact h
  · rw [createPhp_ok c p hp]
    rw [wf_iff] at h
    rw [wf_iff]
    exact ⟨fun x hx => Nat.lt_succ_of_lt (h.1 x hx),
      fun x hx => Nat.lt_succ_of_lt (h.2.1 x hx),
      fun x hx => Nat.lt_succ_of_lt (h.2.2.1 x hx),
      fun x hx => ⟨Nat.lt_succ_of_lt (h.2.2.2 x hx).1, (h.2.2.2 x hx).2⟩⟩

theorem wf_createTp (c : DependencyContainer) (h : c.WF = true) :
    (c.createTodoPage).2.WF = true := by
  rcases hp : c.page with _ | p
  · rw [createTp_err c hp]
    exact h
  · rw [createTp_ok c p hp]
    rw [wf_iff] at h
    rw [wf_iff]
    exact ⟨fun x hx => Nat.lt_succ_of_lt (h.1 x hx),
      fun x hx => Nat.lt_succ_of_lt (h.2.1 x hx),
      fun x hx => Nat.lt_succ_of_lt (h.2.2.1 x hx),
      fun x hx => ⟨Nat.lt_succ_of_lt (h.2.2.2 x hx).1, (h.2.2.2 x hx).2⟩⟩

theorem wf_createLsh (c : DependencyContainer) (h : c.WF = true) :
    (c.createLocalStorageHelper).2.WF = true := by
  rcases hp : c.page with _ | p
  · rw [createLsh_err c hp]
    exact h
  · rw [createLsh_ok c p hp]
    rw [wf_iff] at h
    rw [wf_iff]
    exact ⟨fun x hx => Nat.lt_succ_of_lt (h.1 x hx),
      fun x hx => Nat.lt_succ_of_lt (h.2.1 x hx),
      fun x hx => Nat.lt_succ_of_lt (h.2.2.1 x hx),
      fun x hx => ⟨Nat.lt_succ_of_lt (h.2.2.2 x hx).1, (h.2.2.2 x hx).2⟩⟩

theorem wf_createAh (c : DependencyContainer) (u : Option String) (h : c.WF = true) :
    (c.createApiHelper u).2.WF = true := by
  rcases hr : c.request with _ | r
  · rw [createAh_err c u hr]
    exact h
  · rw [createAh_ok c r u hr]
    rw [wf_iff] at h
    rw [wf_iff]
    exact ⟨fun x hx => Nat.lt_succ_of_lt (h.1 x hx),
      fun x hx => Nat.lt_succ_of_lt (h.2.1 x hx),
      fun x hx => Nat.lt_succ_of_lt (h.2.2.1 x hx),
      fun x hx => ⟨Nat.lt_succ_of_lt (h.2.2.2 x hx).1, (h.2.2.2 x hx).2⟩⟩

theorem wf_gpd (c : DependencyContainer) (h : c.WF = true) :
    (c.getPageDependencies).2.WF = true := by
  rcases hp : c.page with _ | p
  · rw [gpd_err c hp]
    exact h
  · obtain ⟨i1, c1, h1, _, hpg1, _, _, _, _, _⟩ := php_ok c p hp
    have w1 : c1.WF = true := by
      have hw := wf_php c h
      rwa [h1] at hw
    obtain ⟨i2, c2, h2, _, hpg2, _, _, _, _, _⟩ := tp_ok c1 p (hpg1.trans hp)
    have w2 : c2.WF = true := by
      have hw := wf_tp c1 w1
      rwa [h2] at hw
    obtain ⟨i3, c3, h3, _, _, _, _, _, _, _⟩ := lsh_ok c2 p (hpg2.trans (hpg1.trans hp))
    have w3 : c3.WF = true := by
      have hw := wf_lsh c2 w2
      rwa [h3] at hw
    have heq : c.getPageDependencies =
        (Except.ok { playwrightHomePage := i1, todoPage := i2, localStorageHelper := i3 }, c3) := by
      simp [DependencyContainer.getPageDependencies, h1, h2, h3]
    rw [heq]
    exact w3

theorem wf_gapi (c : DependencyContainer) (h : c.WF = true) :
    (c.getApiDependencies).2.WF = true := by
  rcases hr : c.request with _ | r
  · rw [gapi_err c hr]
    exact h
  · obtain ⟨i, c1, h1, _, _, _, _, _, _, _⟩ := ah_ok c r hr
    have w1 : c1.WF = true := by
      have hw := wf_ah c h
      rwa [h1] at hw
    have heq : c.getApiDependencies = (Except.ok { apiHelper := i }, c1) := by
      simp [DependencyContainer.getApiDependencies, h1]
    rw [heq]
    exact w1

theorem wf_gad (c : DependencyContainer) (h : c.WF = true) :
    (c.getAllDependencies).2.WF = true := by
  rcases hp : c.page with _ | p
  · have h1 := gpd_err c hp
    have heq : c.getAllDependencies = (Except.error pageNotInitializedMsg, c) := by
      simp [DependencyContainer.getAllDependencies, h1]
    rw [heq]
    exact h
  · obtain ⟨pd, c1, h1, _, _, _, _, hrq1, _, _⟩ := gpd_ok c p hp
    have w1 : c1.WF = true := by
      have hw := wf_gpd c h
      rwa [h1] at hw
    rcases hr : c1.request with _ | r
    · have h2 := gapi_err c1 hr
      have heq : c.getAllDependencies = (Except.error apiNotInitializedMsg, c1) := by
        simp [DependencyContainer.getAllDependencies, h1, h2]
      rw [heq]
      exact w1
    · obtain ⟨ad, c2, h2, _, _, _, _, _, _, _⟩ := gapi_ok c1 r hr
      have w2 : c2.WF = true := by
        have hw := wf_gapi c1 w1
        rwa [h2] at hw
      have heq : c.getAllDependencies =
          (Except.ok { toPageDependencies := pd, apiHelper := ad.apiHelper }, c2) := by
        simp [DependencyContainer.getAllDependencies, h1, h2]
      rw [heq]
      exact w2

theorem wf_step (c : DependencyContainer) (op : Op) (h : c.WF = true) :
    (step c op).2.WF = true := by
  cases op with
  | initializePage p => exact wf_initializePage c p h
  | initializeApi r => exact wf_initializeApi c r h
  | accessPlaywrightHomePage => rw [step, discardValue_snd]; exact wf_php c h
  | accessTodoPage => rw [step, discardValue_snd]; exact wf_tp c h
  | accessLocalStorageHelper => rw [step, discardValue_snd]; exact wf_lsh c h
  | accessApiHelper => rw [step, discardValue_snd]; exact wf_ah c h
  | createPlaywrightHomePage => rw [step, discardValue_snd]; exact wf_createPhp c h
  | createTodoPage => rw [step, discardValue_snd]; exact wf_createTp c h
  | createLocalStorageHelper => rw [step, discardValue_snd]; exact wf_createLsh c h
  | createApiHelper u => rw [step, discardValue_snd]; exact wf_createAh c u h
  | clearCache => exact wf_clearCache c h
  | getPageDependencies => rw [step, discardValue_snd]; exact wf_gpd c h
  | getApiDependencies => rw [step, discardValue_snd]; exact wf_gapi c h
  | getAllDependencies => rw [step, discardValue_snd]; exact wf_gad c h

theorem wf_run (c : DependencyContainer) (tr : List Op) (h : c.WF = true) :
    (run c tr).WF = true := by
  induction tr generalizing c with
  | nil => exact h
  | cons op tr ih => exact ih (step c op).2 (wf_step c op h)

theorem wf_createDependencyContainer (o e1 e2 : Option String) :
    (createDependencyContainer o e1 e2).WF = true := by
  rw [wf_iff]
  refine ⟨?_, ?_, ?_, ?_⟩ <;> intro x hx <;> exact Option.noConfusion hx


/-- C1: starting from a freshly constructed container, after any operation
history that contains no `initializePage` call, each UI accessor
(`playwrightHomePage`, `todoPage`, `localStorageHelper`) raises the
page-not-initialized error and leaves the container unchanged; after any
history with no `initializeApi` call, the `apiHelper` accessor raises the
API-not-initialized error and leaves the container unchanged. -/
theorem C1_accessor_before_init_errors
    (o e1 e2 : Option String) (tr : List Op) (c : DependencyContainer)
    (hc : c = run (createDependencyContainer o e1 e2) tr) :
    ((∀ op ∈ tr, op.isInitPage = false) →
      c.playwrightHomePage = (Except.error pageNotInitializedMsg, c) ∧
      c.todoPage = (Except.error pageNotInitializedMsg, c) ∧
      c.localStorageHelper = (Except.error pageNotInitializedMsg, c)) ∧
    ((∀ op ∈ tr, op.isInitApi = false) →
      c.apiHelper = (Except.error apiNotInitializedMsg, c)) := by
  subst hc
  constructor
  · intro h
    have hpage : (run (createDependencyContainer o e1 e2) tr).page = none :=
      ((run_frame (createDependencyContainer o e1 e2) tr).1 h).trans rfl
    exact ⟨php_err _ hpage, tp_err _ hpage, lsh_err _ hpage⟩
  · intro h
    have hreq : (run (createDependencyContainer o e1 e2) tr).request = none :=
      ((run_frame (createDependencyContainer o e1 e2) tr).2.1 h).trans rfl
    exact ah_err _ hreq

/-- Witness for C1 at a concrete history. -/
theorem C1_accessor_before_init_errors_witness :
    (run (createDependencyContainer none none none) [Op.initializeApi 7]).playwrightHomePage
      = (Except.error pageNotInitializedMsg,
          run (createDependencyContainer none none none) [Op.initializeApi 7]) ∧
    (run (createDependencyContainer none none none) [Op.initializePage 3]).apiHelper
      = (Except.error apiNotInitializedMsg,
          run (createDependencyContainer none none none) [Op.initializePage 3]) :=
  ⟨((C1_accessor_before_init_errors none none none [Op.initializeApi 7] _ rfl).1
      (by decide)).1,
    (C1_accessor_before_init_errors none none none [Op.initializePage 3] _ rfl).2
      (by decide)⟩

/-- C3: on a fresh container the `apiHelper` accessor throws; after one
`initializeApi` call it returns an instance A; a second read returns the
same A and leaves the state unchanged; after `clearCache()` it returns an
instance B distinct from A. -/
theorem C3_apiHelper_lifecycle (o e1 e2 : Option String) (r : Nat) :
    (createDependencyContainer o e1 e2).apiHelper
        = (Except.error apiNotInitializedMsg, createDependencyContainer o e1 e2) ∧
    ∃ A c2, ((createDependencyContainer o e1 e2).initializeApi r).apiHelper
        = (Except.ok A, c2) ∧
      c2.apiHelper = (Except.ok A, c2) ∧
      ∃ B c4, (c2.clearCache).apiHelper = (Except.ok B, c4) ∧ B ≠ A := by
  refine ⟨ah_err _ rfl, ?_⟩
  have h1 := ah_miss ((createDependencyContainer o e1 e2).initializeApi r) r rfl rfl
  refine ⟨_, _, h1, ah_hit _ r _ rfl rfl, ?_⟩
  refine ⟨_, _, ah_miss _ r rfl rfl, ?_⟩
  exact fun he => Nat.one_ne_zero (congrArg ApiHelper.id he)

/-- C4: once the required session handle is recorded, two successive reads
of the same accessor return the identical instance, and the second read
leaves the container state unchanged. -/
theorem C4_second_read_is_cache_hit (c : DependencyContainer) (p r : Nat) :
    (c.page = some p →
      (∃ i c1, c.playwrightHomePage = (Except.ok i, c1) ∧
        c1.playwrightHomePage = (Except.ok i, c1)) ∧
      (∃ i c1, c.todoPage = (Except.ok i, c1) ∧ c1.todoPage = (Except.ok i, c1)) ∧
      (∃ i c1, c.localStorageHelper = (Except.ok i, c1) ∧
        c1.localStorageHelper = (Except.ok i, c1))) ∧
    (c.request = some r →
      ∃ i c1, c.apiHelper = (Except.ok i, c1) ∧ c1.apiHelper = (Except.ok i, c1)) := by
  constructor
  · intro hp
    refine ⟨?_, ?_, ?_⟩
    · obtain ⟨i, c1, h1, hs1, hpg1, _, _, _, _, _⟩ := php_ok c p hp
      exact ⟨i, c1, h1, php_hit c1 p i (hpg1.trans hp) hs1⟩
    · obtain ⟨i, c1, h1, hs1, hpg1, _, _, _, _, _⟩ := tp_ok c p hp
      exact ⟨i, c1, h1, tp_hit c1 p i (hpg1.trans hp) hs1⟩
    · obtain ⟨i, c1, h1, hs1, hpg1, _, _, _, _, _⟩ := lsh_ok c p hp
      exact ⟨i, c1, h1, lsh_hit c1 p i (hpg1.trans hp) hs1⟩
  · intro hr
    obtain ⟨i, c1, h1, hs1, _, hrq1, _, _, _, _⟩ := ah_ok c r hr
    exact ⟨i, c1, h1, ah_hit c1 r i (hrq1.trans hr) hs1⟩

/-- Witness for C4 on a concrete initialized container. -/
theorem C4_second_read_is_cache_hit_witness :
    ((∃ i c1, sampleContainer.playwrightHomePage = (Except.ok i, c1) ∧
        c1.playwrightHomePage = (Except.ok i, c1)) ∧
      (∃ i c1, sampleContainer.todoPage = (Except.ok i, c1) ∧
        c1.todoPage = (Except.ok i, c1)) ∧
      (∃ i c1, sampleContainer.localStorageHelper = (Except.ok i, c1) ∧
        c1.localStorageHelper = (Except.ok i, c1))) ∧
    (∃ i c1, sampleContainer.apiHelper = (Except.ok i, c1) ∧
      c1.apiHelper = (Except.ok i, c1)) :=
  ⟨(C4_second_read_is_cache_hit sampleContainer 1 2).1 rfl,
    (C4_second_read_is_cache_hit sampleContainer 1 2).2 rfl⟩

/-- C5: `clearCache()` empties all four cache slots, leaves the recorded
page handle, request handle and base URL unchanged, is idempotent, and a
subsequent accessor call constructs a brand-new instance against the
unchanged recorded handle. -/
theorem C5_clearCache_spec (c : DependencyContainer) (p r : Nat) :
    (c.clearCache).cachedPlaywrightHomePage = none ∧
    (c.clearCache).cachedTodoPage = none ∧
    (c.clearCache).cachedLocalStorageHelper = none ∧
    (c.clearCache).cachedApiHelper = none ∧
    (c.clearCache).page = c.page ∧
    (c.clearCache).request = c.request ∧
    (c.clearCache).baseURL = c.baseURL ∧
    (c.clearCache).clearCache = c.clearCache ∧
    (c.page = some p →
      ∃ i c1, (c.clearCache).playwrightHomePage = (Except.ok i, c1) ∧
        i.page = p ∧ i.id = c.nextId ∧ c1.nextId = c.nextId + 1) ∧
    (c.request = some r →
      ∃ a c1, (c.clearCache).apiHelper = (Except.ok a, c1) ∧
        a.request = r ∧ a.id = c.nextId ∧ c1.nextId = c.nextId + 1) := by
  refine ⟨rfl, rfl, rfl, rfl, rfl, rfl, rfl, rfl, ?_, ?_⟩
  · intro hp
    exact ⟨_, _, php_miss (c.clearCache) p hp rfl, rfl, rfl, rfl⟩
  · intro hr
    exact ⟨_, _, ah_miss (c.clearCache) r hr rfl, rfl, rfl, rfl⟩

/-- Witness for C5 on a concrete initialized container. -/
theorem C5_clearCache_spec_witness :
    (∃ i c1, (sampleContainer.clearCache).playwrightHomePage = (Except.ok i, c1) ∧
      i.page = 1 ∧ i.id = sampleContainer.nextId ∧ c1.nextId = sampleContainer.nextId + 1) ∧
    (∃ a c1, (sampleContainer.clearCache).apiHelper = (Except.ok a, c1) ∧
      a.request = 2 ∧ a.id = sampleContainer.nextId ∧ c1.nextId = sampleContainer.nextId + 1) :=
  ⟨(C5_clearCache_spec sampleContainer 1 2).2.2.2.2.2.2.2.2.1 rfl,
    (C5_clearCache_spec sampleContainer 1 2).2.2.2.2.2.2.2.2.2 rfl⟩

/-- C2: on a container with a cached UI instance and a cached API instance,
`initializePage` empties exactly the three UI cache slots (so the next UI
accessor builds a new instance against the new handle) while keeping the
`apiHelper` cache and the recorded request handle; `initializeApi` empties
only the `apiHelper` cache while keeping the UI caches and the page handle. -/
theorem C2_reinitialization_invalidates_only_dependents
    (c : DependencyContainer) (php : PlaywrightHomePage) (ah : ApiHelper) (p2 r2 : Nat)
    (hwf : c.WF = true)
    (hphp : c.cachedPlaywrightHomePage = some php)
    (hah : c.cachedApiHelper = some ah) :
    (c.initializePage p2).cachedPlaywrightHomePage = none ∧
    (c.initializePage p2).cachedTodoPage = none ∧
    (c.initializePage p2).cachedLocalStorageHelper = none ∧
    (c.initializePage p2).cachedApiHelper = c.cachedApiHelper ∧
    (c.initializePage p2).request = c.request ∧
    (c.initializePage p2).page = some p2 ∧
    (∃ i c1, (c.initializePage p2).playwrightHomePage = (Except.ok i, c1) ∧
      i.page = p2 ∧ i ≠ php) ∧
    (c.initializeApi r2).cachedApiHelper = none ∧
    (c.initializeApi r2).cachedPlaywrightHomePage = c.cachedPlaywrightHomePage ∧
    (c.initializeApi r2).cachedTodoPage = c.cachedTodoPage ∧
    (c.initializeApi r2).cachedLocalStorageHelper = c.cachedLocalStorageHelper ∧
    (c.initializeApi r2).page = c.page ∧
    (c.initializeApi r2).request = some r2 ∧
    (∃ a c1, (c.initializeApi r2).apiHelper = (Except.ok a, c1) ∧
      a.request = r2 ∧ a ≠ ah) := by
  have hW := (wf_iff c).1 hwf
  have hlt1 : php.id < c.nextId := hW.1 php hphp
  have hlt2 : ah.id < c.nextId := (hW.2.2.2 ah hah).1
  refine ⟨rfl, rfl, rfl, rfl, rfl, rfl, ?_, rfl, rfl, rfl, rfl, rfl, rfl, ?_⟩
  · refine ⟨_, _, php_miss (c.initializePage p2) p2 rfl rfl, rfl, fun he => ?_⟩
    exact Nat.ne_of_lt hlt1 (congrArg PlaywrightHomePage.id he).symm
  · refine ⟨_, _, ah_miss (c.initializeApi r2) r2 rfl rfl, rfl, fun he => ?_⟩
    exact Nat.ne_of_lt hlt2 (congrArg ApiHelper.id he).symm

/-- Witness for C2 on a concrete populated container. -/
theorem C2_reinitialization_invalidates_only_dependents_witness :
    (sampleContainer.initializePage 5).cachedPlaywrightHomePage = none ∧
    (sampleContainer.initializePage 5).cachedTodoPage = none ∧
    (sampleContainer.initializePage 5).cachedLocalStorageHelper = none ∧
    (sampleContainer.initializePage 5).cachedApiHelper = sampleContainer.cachedApiHelper ∧
    (sampleContainer.initializePage 5).request = sampleContainer.request ∧
    (sampleContainer.initializePage 5).page = some 5 ∧
    (∃ i c1, (sampleContainer.initializePage 5).playwrightHomePage = (Except.ok i, c1) ∧
      i.page = 5 ∧ i ≠ { id := 0, page := 1 }) ∧
    (sampleContainer.initializeApi 6).cachedApiHelper = none ∧
    (sampleContainer.initializeApi 6).cachedPlaywrightHomePage
        = sampleContainer.cachedPlaywrightHomePage ∧
    (sampleContainer.initializeApi 6).cachedTodoPage = sampleContainer.cachedTodoPage ∧
    (sampleContainer.initializeApi 6).cachedLocalStorageHelper
        = sampleContainer.cachedLocalStorageHelper ∧
    (sampleContainer.initializeApi 6).page = sampleContainer.page ∧
    (sampleContainer.initializeApi 6).request = some 6 ∧
    (∃ a c1, (sampleContainer.initializeApi 6).apiHelper = (Except.ok a, c1) ∧
      a.request = 6 ∧ a ≠ { id := 1, request := 2, baseURL := defaultApiBaseURL }) :=
  C2_reinitialization_invalidates_only_dependents sampleContainer
    { id := 0, page := 1 } { id := 1, request := 2, baseURL := defaultApiBaseURL }
    5 6 (by decide) rfl rfl

/-- C6: with the required handle recorded, calling the same create-fresh
method twice yields two distinct instances, neither equal to the cached
instance the accessor returns, and neither call touches any cache slot or
recorded handle; without the handle, create-fresh raises the same
not-initialized error as the accessor, leaving the state unchanged. -/
theorem C6_createFresh_distinct_and_noncaching
    (c : DependencyContainer) (p r : Nat) (hwf : c.WF = true) :
    (c.page = some p →
      (∃ f1 c1 f2 c2, c.createPlaywrightHomePage = (Except.ok f1, c1) ∧
        c1.createPlaywrightHomePage = (Except.ok f2, c2) ∧ f1 ≠ f2 ∧
        (∀ i, c.cachedPlaywrightHomePage = some i →
          c.playwrightHomePage = (Except.ok i, c) ∧ f1 ≠ i ∧ f2 ≠ i) ∧
        c1.cachedPlaywrightHomePage = c.cachedPlaywrightHomePage ∧
        c1.cachedTodoPage = c.cachedTodoPage ∧
        c1.cachedLocalStorageHelper = c.cachedLocalStorageHelper ∧
        c1.cachedApiHelper = c.cachedApiHelper ∧
        c1.page = c.page ∧ c1.request = c.request) ∧
      (∃ f1 c1 f2 c2, c.createTodoPage = (Except.ok f1, c1) ∧
        c1.createTodoPage = (Except.ok f2, c2) ∧ f1 ≠ f2 ∧
        (∀ i, c.cachedTodoPage = some i →
          c.todoPage = (Except.ok i, c) ∧ f1 ≠ i ∧ f2 ≠ i) ∧
        c1.cachedPlaywrightHomePage = c.cachedPlaywrightHomePage ∧
        c1.cachedTodoPage = c.cachedTodoPage ∧
        c1.cachedLocalStorageHelper = c.cachedLocalStorageHelper ∧
        c1.cachedApiHelper = c.cachedApiHelper ∧
        c1.page = c.page ∧ c1.request = c.request) ∧
      (∃ f1 c1 f2 c2, c.createLocalStorageHelper = (Except.ok f1, c1) ∧
        c1.createLocalStorageHelper = (Except.ok f2, c2) ∧ f1 ≠ f2 ∧
        (∀ i, c.cachedLocalStorageHelper = some i →
          c.localStorageHelper = (Except.ok i, c) ∧ f1 ≠ i ∧ f2 ≠ i) ∧
        c1.cachedPlaywrightHomePage = c.cachedPlaywrightHomePage ∧
        c1.cachedTodoPage = c.cachedTodoPage ∧
        c1.cachedLocalStorageHelper = c.cachedLocalStorageHelper ∧
        c1.cachedApiHelper = c.cachedApiHelper ∧
        c1.page = c.page ∧ c1.request = c.request)) ∧
    (c.request = some r →
      ∃ f1 c1 f2 c2, c.createApiHelper none = (Except.ok f1, c1) ∧
        c1.createApiHelper none = (Except.ok f2, c2) ∧ f1 ≠ f2 ∧
        (∀ i, c.cachedApiHelper = some i →
          c.apiHelper = (Except.ok i, c) ∧ f1 ≠ i ∧ f2 ≠ i) ∧
        c1.cachedPlaywrightHomePage = c.cachedPlaywrightHomePage ∧
        c1.cachedTodoPage = c.cachedTodoPage ∧
        c1.cachedLocalStorageHelper = c.cachedLocalStorageHelper ∧
        c1.cachedApiHelper = c.cachedApiHelper ∧
        c1.page = c.page ∧ c1.request = c.request) ∧
    (c.page = none →
      c.createPlaywrightHomePage = (Except.error pageNotInitializedMsg, c) ∧
      c.createTodoPage = (Except.error pageNotInitializedMsg, c) ∧
      c.createLocalStorageHelper = (Except.error pageNotInitializedMsg, c)) ∧
    (c.request = none →
      ∀ u, c.createApiHelper u = (Except.error apiNotInitializedMsg, c)) := by
  have hW := (wf_iff c).1 hwf
  refine ⟨?_, ?_, ?_, ?_⟩
  · intro hp
    refine ⟨?_, ?_, ?_⟩
    · refine ⟨_, _, _, _, createPhp_ok c p hp, createPhp_ok _ p hp, fun he => ?_, ?_,
        rfl, rfl, rfl, rfl, rfl, rfl⟩
      · exact Nat.ne_of_lt (Nat.lt_succ_self c.nextId) (congrArg PlaywrightHomePage.id he)
      · intro i hi
        have hlt := hW.1 i hi
        exact ⟨php_hit c p i hp hi,
          fun he => Nat.ne_of_lt hlt (congrArg PlaywrightHomePage.id he).symm,
          fun he => Nat.ne_of_lt (Nat.lt_succ_of_lt hlt)
            (congrArg PlaywrightHomePage.id he).symm⟩
    · refine ⟨_, _, _, _, createTp_ok c p hp, createTp_ok _ p hp, fun he => ?_, ?_,
        rfl, rfl, rfl, rfl, rfl, rfl⟩
      · exact Nat.ne_of_lt (Nat.lt_succ_self c.nextId) (congrArg TodoPage.id he)
      · intro i hi
        have hlt := hW.2.1 i hi
        exact ⟨tp_hit c p i hp hi,
          fun he => Nat.ne_of_lt hlt (congrArg TodoPage.id he).symm,
          fun he => Nat.ne_of_lt (Nat.lt_succ_of_lt hlt) (congrArg TodoPage.id he).symm⟩
    · refine ⟨_, _, _, _, createLsh_ok c p hp, createLsh_ok _ p hp, fun he => ?_, ?_,
        rfl, rfl, rfl, rfl, rfl, rfl⟩
      · exact Nat.ne_of_lt (Nat.lt_succ_self c.nextId) (congrArg LocalStorageHelper.id he)
      · intro i hi
        have hlt := hW.2.2.1 i hi
        exact ⟨lsh_hit c p i hp hi,
          fun he => Nat.ne_of_lt hlt (congrArg LocalStorageHelper.id he).symm,
          fun he => Nat.ne_of_lt (Nat.lt_succ_of_lt hlt)
            (congrArg LocalStorageHelper.id he).symm⟩
  · intro hr
    refine ⟨_, _, _, _, createAh_ok c r none hr, createAh_ok _ r none hr, fun he => ?_, ?_,
      rfl, rfl, rfl, rfl, rfl, rfl⟩
    · exact Nat.ne_of_lt (Nat.lt_succ_self c.nextId) (congrArg ApiHelper.id he)
    · intro i hi
      have hlt := (hW.2.2.2 i hi).1
      exact ⟨ah_hit c r i hr hi,
        fun he => Nat.ne_of_lt hlt (congrArg ApiHelper.id he).symm,
        fun he => Nat.ne_of_lt (Nat.lt_succ_of_lt hlt) (congrArg ApiHelper.id he).symm⟩
  · intro hn
    exact ⟨createPhp_err c hn, createTp_err c hn, createLsh_err c hn⟩
  · intro hn u
    exact createAh_err c u hn

/-- Witness for C6: a populated container for the distinctness parts and a
fresh container for the precondition-error parts. -/
theorem C6_createFresh_distinct_and_noncaching_witness :
    (∃ f1 c1 f2 c2, sampleContainer.createPlaywrightHomePage = (Except.ok f1, c1) ∧
      c1.createPlaywrightHomePage = (Except.ok f2, c2) ∧ f1 ≠ f2 ∧
      (∀ i, sampleContainer.cachedPlaywrightHomePage = some i →
        sampleContainer.playwrightHomePage = (Except.ok i, sampleContainer) ∧
        f1 ≠ i ∧ f2 ≠ i) ∧
      c1.cachedPlaywrightHomePage = sampleContainer.cachedPlaywrightHomePage ∧
      c1.cachedTodoPage = sampleContainer.cachedTodoPage ∧
      c1.cachedLocalStorageHelper = sampleContainer.cachedLocalStorageHelper ∧
      c1.cachedApiHelper = sampleContainer.cachedApiHelper ∧
      c1.page = sampleContainer.page ∧ c1.request = sampleContainer.request) ∧
    (∃ f1 c1 f2 c2, sampleContainer.createApiHelper none = (Except.ok f1, c1) ∧
      c1.createApiHelper none = (Except.ok f2, c2) ∧ f1 ≠ f2 ∧
      (∀ i, sampleContainer.cachedApiHelper = some i →
        sampleContainer.apiHelper = (Except.ok i, sampleContainer) ∧ f1 ≠ i ∧ f2 ≠ i) ∧
      c1.cachedPlaywrightHomePage = sampleContainer.cachedPlaywrightHomePage ∧
      c1.cachedTodoPage = sampleContainer.cachedTodoPage ∧
      c1.cachedLocalStorageHelper = sampleContainer.cachedLocalStorageHelper ∧
      c1.cachedApiHelper = sampleContainer.cachedApiHelper ∧
      c1.page = sampleContainer.page ∧ c1.request = sampleContainer.request) ∧
    ((createDependencyContainer none none none).createPlaywrightHomePage
        = (Except.error pageNotInitializedMsg, createDependencyContainer none none none) ∧
      (createDependencyContainer none none none).createTodoPage
        = (Except.error pageNotInitializedMsg, createDependencyContainer none none none) ∧
      (createDependencyContainer none none none).createLocalStorageHelper
        = (Except.error pageNotInitializedMsg, createDependencyContainer none none none)) ∧
    (createDependencyContainer none none none).createApiHelper none
        = (Except.error apiNotInitializedMsg, createDependencyContainer none none none) :=
  ⟨((C6_createFresh_distinct_and_noncaching sampleContainer 1 2 (by decide)).1 rfl).1,
    (C6_createFresh_distinct_and_noncaching sampleContainer 1 2 (by decide)).2.1 rfl,
    (C6_createFresh_distinct_and_noncaching
      (createDependencyContainer none none none) 1 2 (by decide)).2.2.1 rfl,
    (C6_createFresh_distinct_and_noncaching
      (createDependencyContainer none none none) 1 2 (by decide)).2.2.2 rfl none⟩

/-- C7: with the required handle recorded and the cache slot empty, the
accessor constructs a new instance holding exactly the recorded handle
(and, for `apiHelper`, the container's base URL), stores it in the cache
slot, and returns it. -/
theorem C7_accessor_constructs_with_recorded_handle
    (c : DependencyContainer) (p r : Nat) :
    (c.page = some p → c.cachedPlaywrightHomePage = none →
      ∃ i c1, c.playwrightHomePage = (Except.ok i, c1) ∧ i.page = p ∧ i.id = c.nextId ∧
        c1.cachedPlaywrightHomePage = some i ∧ c1.page = c.page ∧ c1.request = c.request) ∧
    (c.page = some p → c.cachedTodoPage = none →
      ∃ i c1, c.todoPage = (Except.ok i, c1) ∧ i.page = p ∧ i.id = c.nextId ∧
        c1.cachedTodoPage = some i ∧ c1.page = c.page ∧ c1.request = c.request) ∧
    (c.page = some p → c.cachedLocalStorageHelper = none →
      ∃ i c1, c.localStorageHelper = (Except.ok i, c1) ∧ i.page = p ∧ i.id = c.nextId ∧
        c1.cachedLocalStorageHelper = some i ∧ c1.page = c.page ∧ c1.request = c.request) ∧
    (c.request = some r → c.cachedApiHelper = none →
      ∃ a c1, c.apiHelper = (Except.ok a, c1) ∧ a.request = r ∧ a.baseURL = c.baseURL ∧
        a.id = c.nextId ∧ c1.cachedApiHelper = some a ∧ c1.request = c.request) := by
  refine ⟨?_, ?_, ?_, ?_⟩ <;> intro h1 h2
  · exact ⟨_, _, php_miss c p h1 h2, rfl, rfl, rfl, rfl, rfl⟩
  · exact ⟨_, _, tp_miss c p h1 h2, rfl, rfl, rfl, rfl, rfl⟩
  · exact ⟨_, _, lsh_miss c p h1 h2, rfl, rfl, rfl, rfl, rfl⟩
  · exact ⟨_, _, ah_miss c r h1 h2, rfl, rfl, rfl, rfl, rfl⟩


/-- Witness for C7 on a concrete initialized, cache-empty container. -/
theorem C7_accessor_constructs_with_recorded_handle_witness :
    (∃ i c1, emptyCacheContainer.playwrightHomePage = (Except.ok i, c1) ∧
      i.page = 1 ∧ i.id = emptyCacheContainer.nextId ∧
      c1.cachedPlaywrightHomePage = some i ∧ c1.page = emptyCacheContainer.page ∧
      c1.request = emptyCacheContainer.request) ∧
    (∃ a c1, emptyCacheContainer.apiHelper = (Except.ok a, c1) ∧
      a.request = 2 ∧ a.baseURL = emptyCacheContainer.baseURL ∧
      a.id = emptyCacheContainer.nextId ∧ c1.cachedApiHelper = some a ∧
      c1.request = emptyCacheContainer.request) :=
  ⟨(C7_accessor_constructs_with_recorded_handle emptyCacheContainer 1 2).1 rfl rfl,
    (C7_accessor_constructs_with_recorded_handle emptyCacheContainer 1 2).2.2.2 rfl rfl⟩

/-- C8: `initializePage` and `initializeApi` always succeed: for every
container state and every handle, the operation returns success (there is
no error branch). -/
theorem C8_initialize_always_succeeds (c : DependencyContainer) (p r : Nat) :
    (step c (Op.initializePage p)).1 = Except.ok () ∧
    (step c (Op.initializeApi r)).1 = Except.ok () :=
  ⟨rfl, rfl⟩

/-- C9: when the page handle is recorded but the request handle is not,
`getAllDependencies` raises the API-not-initialized error, yet the three
UI cache slots are populated by the failing call; if the
`playwrightHomePage` slot was empty beforehand, the state has changed. -/
theorem C9_getAllDependencies_not_atomic (c : DependencyContainer) (p : Nat)
    (hp : c.page = some p) (hr : c.request = none) :
    ∃ c1, c.getAllDependencies = (Except.error apiNotInitializedMsg, c1) ∧
      c1.cachedPlaywrightHomePage.isSome = true ∧
      c1.cachedTodoPage.isSome = true ∧
      c1.cachedLocalStorageHelper.isSome = true ∧
      c1.page = c.page ∧ c1.request = none ∧
      (c.cachedPlaywrightHomePage = none → c1 ≠ c) := by
  obtain ⟨pd, c1, h1, hs1, hs2, hs3, hpg1, hrq1, _, _⟩ := gpd_ok c p hp
  have hr1 : c1.request = none := hrq1.trans hr
  have h2 := gapi_err c1 hr1
  have heq : c.getAllDependencies = (Except.error apiNotInitializedMsg, c1) := by
    simp [DependencyContainer.getAllDependencies, h1, h2]
  refine ⟨c1, heq, by rw [hs1]; rfl, by rw [hs2]; rfl, by rw [hs3]; rfl, hpg1, hr1, ?_⟩
  intro hnone he
  rw [he, hnone] at hs1
  exact Option.noConfusion hs1

/-- Witness for C9 on a page-only initialized container. -/
theorem C9_getAllDependencies_not_atomic_witness :
    ∃ c1, ((createDependencyContainer none none none).initializePage 1).getAllDependencies
        = (Except.error apiNotInitializedMsg, c1) ∧
      c1.cachedPlaywrightHomePage.isSome = true ∧
      c1.cachedTodoPage.isSome = true ∧
      c1.cachedLocalStorageHelper.isSome = true ∧
      c1.page = ((createDependencyContainer none none none).initializePage 1).page ∧
      c1.request = none ∧
      (((createDependencyContainer none none none).initializePage 1).cachedPlaywrightHomePage
          = none →
        c1 ≠ (createDependencyContainer none none none).initializePage 1) :=
  C9_getAllDependencies_not_atomic
    ((createDependencyContainer none none none).initializePage 1) 1 rfl rfl



/-- C10: the base URL is fixed by the constructor (the options argument
when given non-empty, otherwise the environment-derived default), is never
modified by any subsequent operation, is the `getBaseUrl()` of the cached
`apiHelper`, and `createApiHelper` uses the custom base URL when given
non-empty and the container's base URL otherwise. -/
theorem C10_baseURL_fixed_and_propagated
    (o e1 e2 : Option String) (c : DependencyContainer) (tr : List Op) (r : Nat) (s : String) :
    ((∀ b, o = some b → b ≠ "" → (createDependencyContainer o e1 e2).baseURL = b) ∧
      (o = none →
        (createDependencyContainer o e1 e2).baseURL = jsOr e1 (jsOr e2 defaultApiBaseURL))) ∧
    (run c tr).baseURL = c.baseURL ∧
    (c.WF = true → c.request = some r →
      ∀ a c1, c.apiHelper = (Except.ok a, c1) → a.getBaseUrl = c.baseURL) ∧
    (c.request = some r →
      (s ≠ "" →
        ∃ a c1, c.createApiHelper (some s) = (Except.ok a, c1) ∧ a.getBaseUrl = s) ∧
      (∃ a c1, c.createApiHelper none = (Except.ok a, c1) ∧ a.getBaseUrl = c.baseURL)) := by
  refine ⟨⟨?_, ?_⟩, (run_frame c tr).2.2, ?_, ?_⟩
  · intro b hb hne
    subst hb
    simp [createDependencyContainer, jsOr, hne]
  · intro hb
    subst hb
    rfl
  · intro hwf hr a c1 heq
    rcases hc : c.cachedApiHelper with _ | i
    · rw [ah_miss c r hr hc] at heq
      injection heq with hfst hsnd
      injection hfst with ha
      rw [← ha]
      rfl
    · rw [ah_hit c r i hr hc] at heq
      injection heq with hfst hsnd
      injection hfst with ha
      rw [← ha]
      exact (((wf_iff c).1 hwf).2.2.2 i hc).2
  · intro hr
    constructor
    · intro hs
      refine ⟨_, _, createAh_ok c r (some s) hr, ?_⟩
      simp [ApiHelper.getBaseUrl, jsOr, hs]
    · exact ⟨_, _, createAh_ok c r none hr, rfl⟩

/-- Witness for C10 at concrete URLs and a concrete container. -/
theorem C10_baseURL_fixed_and_propagated_witness :
    (createDependencyContainer (some exampleBaseURL) none none).baseURL = exampleBaseURL ∧
    (createDependencyContainer none none none).baseURL
        = jsOr none (jsOr none defaultApiBaseURL) ∧
    (run sampleContainer [Op.clearCache]).baseURL = sampleContainer.baseURL ∧
    ApiHelper.getBaseUrl { id := 1, request := 2, baseURL := defaultApiBaseURL }
        = sampleContainer.baseURL ∧
    (∃ a c1, sampleContainer.createApiHelper (some customBaseURL) = (Except.ok a, c1) ∧
      a.getBaseUrl = customBaseURL) ∧
    (∃ a c1, sampleContainer.createApiHelper none = (Except.ok a, c1) ∧
      a.getBaseUrl = sampleContainer.baseURL) :=
  ⟨(C10_baseURL_fixed_and_propagated (some exampleBaseURL) none none sampleContainer
      [] 2 customBaseURL).1.1 exampleBaseURL rfl (by decide),
    (C10_baseURL_fixed_and_propagated none none none sampleContainer
      [] 2 customBaseURL).1.2 rfl,
    (C10_baseURL_fixed_and_propagated none none none sampleContainer
      [Op.clearCache] 2 customBaseURL).2.1,
    (C10_baseURL_fixed_and_propagated none none none sampleContainer
      [] 2 customBaseURL).2.2.1 (by decide) rfl
      { id := 1, request := 2, baseURL := defaultApiBaseURL } sampleContainer rfl,
    ((C10_baseURL_fixed_and_propagated none none none sampleContainer
      [] 2 customBaseURL).2.2.2 rfl).1 (by decide),
    ((C10_baseURL_fixed_and_propagated none none none sampleContainer
      [] 2 customBaseURL).2.2.2 rfl).2⟩
